import Mathlib

/-!
# Verification of `physics-driven-ml` data generation and test-harness orchestration

Shallow embedding of `src/dataset_processing/generate_data.py` and of the tape
lifecycle of `src/tests/test_pytorch_coupling.py`.

Modelling conventions:
* A Firedrake `Function`'s coefficient vector is a `List ℝ` (`Vec`).
* The normal variates produced by `numpy.random.default_rng(seed)` are modelled
  by an abstract stream `gauss : Nat → Nat → ℝ` giving the value of the `p`-th
  standard-normal draw of the generator seeded with `seed`; `rng.normal(0, σ)`
  scales a standard draw by `σ`.  The legacy global generator used by
  `np.random.rand` is modelled by a stream `unif : Nat → ℝ` together with an
  explicit position counter threaded through the computation.
* External Firedrake operations (interpolation into the function space, the
  nonlinear solve) are abstract parameters `interp` and `solveExt`; what the
  script passes to `solve` (variational form, boundary conditions, solver
  parameters) is recorded symbolically in the event trace.
* Python exceptions are an `Except` result; the order of side effects is an
  explicit event trace.
-/

noncomputable section

/-- Coefficient vector of a Firedrake `Function` (`u.dat.data`). -/
abbrev Vec := List ℝ

/-- A scalar UFL expression over the mesh coordinates, as a pointwise map. -/
abbrev ScalarField := ℝ → ℝ → ℝ

/-- State of a `numpy.random.default_rng` generator: its seed and how many
normal variates have been drawn so far. -/
structure RNGState where
  seed : Nat
  pos : Nat

/-- One iteration of the inner mode loop of `random_field`
(`generate_data.py`, lines 20-25): draw `a, b = rng.standard_normal(2)`,
then `k1, k2 = rng.normal(0, σ, 2)`, and add
`Constant(a) * cos(θ) + Constant(b) * sin(θ)` with `θ = 2π(k1 x + k2 y)`
to the running expression `r`. -/
def modeStep (gauss : Nat → Nat → ℝ) (σ : ℝ) (g : RNGState) (r : ScalarField) :
    ScalarField × RNGState :=
  let a := gauss g.seed g.pos
  let b := gauss g.seed (g.pos + 1)
  let k1 := σ * gauss g.seed (g.pos + 2)
  let k2 := σ * gauss g.seed (g.pos + 3)
  ((fun x y => r x y +
      (a * Real.cos (2 * Real.pi * (k1 * x + k2 * y)) +
       b * Real.sin (2 * Real.pi * (k1 * x + k2 * y)))),
   ⟨g.seed, g.pos + 4⟩)

/-- The inner `for _ in range(m)` loop of `random_field`, threading the
generator state through `m` mode draws. -/
def modesLoop (gauss : Nat → Nat → ℝ) (σ : ℝ) : Nat → RNGState → ScalarField →
    ScalarField × RNGState
  | 0 => fun g r => (r, g)
  | Nat.succ n => fun g r =>
      modesLoop gauss σ n (modeStep gauss σ g r).2 (modeStep gauss σ g r).1

/-- One iteration of the outer field loop: run the mode loop starting from
`r = 0` and interpolate `sqrt(1/m) * r` (interpolation into `V` is external;
the expression itself is kept). -/
def oneField (gauss : Nat → Nat → ℝ) (m : Nat) (σ : ℝ) (g : RNGState) :
    ScalarField × RNGState :=
  ((fun x y => Real.sqrt (1 / (m : ℝ)) * (modesLoop gauss σ m g (fun _ _ => 0)).1 x y),
   (modesLoop gauss σ m g (fun _ _ => 0)).2)

/-- The outer `for _ in trange(N)` loop of `random_field`, appending fields in
order. -/
def fieldsLoop (gauss : Nat → Nat → ℝ) (m : Nat) (σ : ℝ) : Nat → RNGState → List ScalarField
  | 0 => fun _ => []
  | Nat.succ n => fun g =>
      (oneField gauss m σ g).1 :: fieldsLoop gauss m σ n (oneField gauss m σ g).2

/-- `random_field(V, N, m, σ, tqdm, seed)` (`generate_data.py`, lines 14-27).
Python defaults: `N=1`, `m=15`, `σ=1.4`, `seed=2023`.  The function constructs
a fresh local generator via `default_rng(seed)`; the global numpy random state
`globalRng` (position of the legacy global stream) is passed through to record
that the function neither reads nor advances it. -/
def random_field (gauss : Nat → Nat → ℝ) (globalRng : Nat) (N m : Nat) (σ : ℝ)
    (seed : Nat) : List ScalarField × Nat :=
  (fieldsLoop gauss m σ N ⟨seed, 0⟩, globalRng)

/-- Closed form of one mode's contribution: the draw at stream position `p`
is the cosine amplitude, `p+1` the sine amplitude, `p+2` and `p+3` (scaled by
`σ`) the two frequency components. -/
def modeTerm (gauss : Nat → Nat → ℝ) (σ : ℝ) (seed p : Nat) : ScalarField :=
  fun x y =>
    gauss seed p *
      Real.cos (2 * Real.pi * (σ * gauss seed (p + 2) * x + σ * gauss seed (p + 3) * y)) +
    gauss seed (p + 1) *
      Real.sin (2 * Real.pi * (σ * gauss seed (p + 2) * x + σ * gauss seed (p + 3) * y))

/-- Closed form of a whole field whose first draw sits at stream position `p`. -/
def closedField (gauss : Nat → Nat → ℝ) (σ : ℝ) (m seed p : Nat) : ScalarField :=
  fun x y =>
    Real.sqrt (1 / (m : ℝ)) * ∑ j ∈ Finset.range m, modeTerm gauss σ seed (p + 4 * j) x y

theorem modesLoop_eq (gauss : Nat → Nat → ℝ) (σ : ℝ) (seed : Nat) :
    ∀ (m p : Nat) (r : ScalarField),
      modesLoop gauss σ m ⟨seed, p⟩ r =
        ((fun x y => r x y + ∑ j ∈ Finset.range m, modeTerm gauss σ seed (p + 4 * j) x y),
         ⟨seed, p + 4 * m⟩) := by
  intro m
  induction m with
  | zero =>
      intro p r
      simp only [modesLoop, Finset.range_zero, Finset.sum_empty, Nat.mul_zero, Nat.add_zero]
      refine Prod.ext ?_ rfl
      funext x y
      simp
  | succ n ih =>
      intro p r
      have hstep : modeStep gauss σ ⟨seed, p⟩ r =
          ((fun x y => r x y + modeTerm gauss σ seed p x y), ⟨seed, p + 4⟩) := by
        simp [modeStep, modeTerm]
      simp only [modesLoop, hstep]
      rw [ih (p + 4)]
      refine Prod.ext ?_ ?_
      · funext x y
        simp only
        rw [Finset.sum_range_succ']
        have hidx : ∀ j ∈ Finset.range n,
            modeTerm gauss σ seed (p + 4 + 4 * j) x y =
            modeTerm gauss σ seed (p + 4 * (j + 1)) x y := by
          intro j _
          have : p + 4 + 4 * j = p + 4 * (j + 1) := by ring
          rw [this]
        rw [Finset.sum_congr rfl hidx]
        have : p + 4 * 0 = p := by ring
        rw [this]
        ring
      · simp only
        refine congrArg (RNGState.mk seed) ?_
        omega

theorem oneField_eq (gauss : Nat → Nat → ℝ) (σ : ℝ) (seed m p : Nat) :
    oneField gauss m σ ⟨seed, p⟩ =
      (closedField gauss σ m seed p, ⟨seed, p + 4 * m⟩) := by
  unfold oneField closedField
  rw [modesLoop_eq]
  refine Prod.ext ?_ rfl
  funext x y
  simp

theorem fieldsLoop_eq (gauss : Nat → Nat → ℝ) (σ : ℝ) (seed m : Nat) :
    ∀ (N p : Nat),
      fieldsLoop gauss m σ N ⟨seed, p⟩ =
        (List.range N).map (fun i => closedField gauss σ m seed (p + 4 * m * i)) := by
  intro N
  induction N with
  | zero => intro p; simp [fieldsLoop]
  | succ n ih =>
      intro p
      simp only [fieldsLoop, oneField_eq]
      rw [ih (p + 4 * m)]
      rw [List.range_succ_eq_map]
      simp only [List.map_cons, List.map_map]
      refine congrArg₂ _ (by rw [Nat.mul_zero, Nat.add_zero]) ?_
      refine List.map_congr_left ?_
      intro i _
      simp only [Function.comp]
      refine congrArg (closedField gauss σ m seed) ?_
      have hsucc : i.succ = i + 1 := rfl
      rw [hsucc]
      ring

/-- `random_field` as an explicit list of closed-form fields: field `i` starts
at stream position `4 * m * i`. -/
theorem random_field_closed (gauss : Nat → Nat → ℝ) (globalRng N m : Nat) (σ : ℝ)
    (seed : Nat) :
    (random_field gauss globalRng N m σ seed).1 =
      (List.range N).map (fun i => closedField gauss σ m seed (4 * m * i)) := by
  unfold random_field
  rw [fieldsLoop_eq]
  refine List.map_congr_left ?_
  intro i _
  refine congrArg (closedField gauss σ m seed) ?_
  omega

/-- C6: for a fixed seed, mode count and function space, `random_field` is a
pure function of its arguments: its output is identical across invocations
with different global random states, and the global random state is neither
consumed nor advanced (the code seeds a fresh local generator with
`default_rng(seed)`). -/
theorem random_field_deterministic (gauss : Nat → Nat → ℝ) (g1 g2 N m : Nat)
    (σ : ℝ) (seed : Nat) :
    (random_field gauss g1 N m σ seed).1 = (random_field gauss g2 N m σ seed).1 ∧
    (random_field gauss g1 N m σ seed).2 = g1 := by
  exact ⟨rfl, rfl⟩

/-- C7: the `i`-th field produced by `random_field` with mode count `m` is
`sqrt(1/m)` times the sum over the `m` modes of
`a * cos(2π(k1 x + k2 y)) + b * sin(2π(k1 x + k2 y))`, where for mode `j` the
amplitudes `a, b` are the standard-normal draws at positions `4(m i + j)` and
`4(m i + j) + 1`, and the frequency components `k1, k2` are `σ` times the
draws at positions `4(m i + j) + 2` and `4(m i + j) + 3` (the
`rng.normal(0, σ, 2)` pair). -/
theorem random_field_structure (gauss : Nat → Nat → ℝ) (globalRng N m : Nat)
    (σ : ℝ) (seed i : Nat) (hi : i < N) (x y : ℝ) :
    ((random_field gauss globalRng N m σ seed).1.getD i (fun _ _ => 0)) x y =
      Real.sqrt (1 / (m : ℝ)) *
        ∑ j ∈ Finset.range m,
          (gauss seed (4 * (m * i + j)) *
             Real.cos (2 * Real.pi *
               (σ * gauss seed (4 * (m * i + j) + 2) * x +
                σ * gauss seed (4 * (m * i + j) + 3) * y)) +
           gauss seed (4 * (m * i + j) + 1) *
             Real.sin (2 * Real.pi *
               (σ * gauss seed (4 * (m * i + j) + 2) * x +
                σ * gauss seed (4 * (m * i + j) + 3) * y))) := by
  rw [random_field_closed]
  rw [List.getD_eq_getElem?_getD]
  rw [List.getElem?_map, List.getElem?_range hi]
  simp only [Option.map_some', Option.getD_some]
  unfold closedField modeTerm
  refine congrArg _ ?_
  refine Finset.sum_congr rfl ?_
  intro j _
  have harg : 4 * m * i + 4 * j = 4 * (m * i + j) := by ring
  rw [harg]

/-- A concrete normal-variate stream used by witnesses. -/
def gaussW : Nat → Nat → ℝ := fun _ p => (p : ℝ)

/-- Witness for C7 at a concrete input. -/
theorem random_field_structure_witness :
    ((random_field gaussW 0 1 1 1 0).1.getD 0 (fun _ _ => 0)) 1 0 =
      Real.sqrt (1 / ((1 : Nat) : ℝ)) *
        ∑ j ∈ Finset.range 1,
          (gaussW 0 (4 * (1 * 0 + j)) *
             Real.cos (2 * Real.pi *
               (1 * gaussW 0 (4 * (1 * 0 + j) + 2) * 1 +
                1 * gaussW 0 (4 * (1 * 0 + j) + 3) * 0)) +
           gaussW 0 (4 * (1 * 0 + j) + 1) *
             Real.sin (2 * Real.pi *
               (1 * gaussW 0 (4 * (1 * 0 + j) + 2) * 1 +
                1 * gaussW 0 (4 * (1 * 0 + j) + 3) * 0))) :=
  random_field_structure gaussW 0 1 1 1 0 0 (by decide) 1 0

end

noncomputable section

/-- Python-level errors raised by `generate_data`. -/
inductive PyErr where
  | notImplemented (msg : String)
  | nameError (n : String)
  | valueError

/-- A scalar UFL expression tree, as built by the script.  `coefK i` is the
`i`-th sampled coefficient `Function`, `trialU` the unknown `Function(V)`,
`testV` the `TestFunction(V)`, `srcF` the interpolated source `Function`. -/
inductive UFLExpr where
  | X
  | Y
  | piE
  | const (c : ℝ)
  | coefK (i : Nat)
  | trialU
  | testV
  | srcF
  | add (a b : UFLExpr)
  | sub (a b : UFLExpr)
  | mul (a b : UFLExpr)
  | sin (a : UFLExpr)
  | cos (a : UFLExpr)
  | exp (a : UFLExpr)
  | grad (a : UFLExpr)
  | inner (a b : UFLExpr)

/-- Pointwise evaluation of the purely scalar fragment of `UFLExpr` at mesh
coordinates `(x, y)`; `none` on nodes that are not pointwise scalars. -/
def UFLExpr.evalS : UFLExpr → ℝ → ℝ → Option ℝ
  | .X, x, _ => some x
  | .Y, _, y => some y
  | .piE, _, _ => some Real.pi
  | .const c, _, _ => some c
  | .add a b, x, y =>
      match a.evalS x y, b.evalS x y with
      | some va, some vb => some (va + vb)
      | _, _ => none
  | .sub a b, x, y =>
      match a.evalS x y, b.evalS x y with
      | some va, some vb => some (va - vb)
      | _, _ => none
  | .mul a b, x, y =>
      match a.evalS x y, b.evalS x y with
      | some va, some vb => some (va * vb)
      | _, _ => none
  | .sin a, x, y =>
      match a.evalS x y with
      | some va => some (Real.sin va)
      | none => none
  | .cos a, x, y =>
      match a.evalS x y with
      | some va => some (Real.cos va)
      | none => none
  | .exp a, x, y =>
      match a.evalS x y with
      | some va => some (Real.exp va)
      | none => none
  | _, _, _ => none

/-- What one call to `solve(F == 0, u, bcs=bcs, solver_parameters=...)`
receives (`generate_data.py`, lines 49-53): the residual form `F` (integrand
of the `dx` measure), the source expression interpolated into `f`, the
Dirichlet boundary conditions as (constant value, region) pairs, and the two
PETSc solver parameters. -/
structure SolveCallSpec where
  F : UFLExpr
  source : UFLExpr
  bcs : List (ℝ × String)
  ksp : String
  pc : String

/-- Side effects of a `generate_data` run, in program order. -/
inductive Event where
  | sampleField (i : Nat)
  | pdeSolve (c : SolveCallSpec)
  | forwardCall
  | noiseAdd (i : Nat)
  | noiseCall
  | openFile (name : String)

/-- The `forward` argument: a string identifier or a caller-supplied callable
mapping the list of sampled fields to a list of solutions. -/
inductive FwdArg where
  | str (s : String)
  | call (f : List Vec → List Vec)

/-- The `noise` argument: a string identifier or a caller-supplied callable
mapping the list of solutions to a list of observations. -/
inductive NoiseArg where
  | str (s : String)
  | call (f : List Vec → List Vec)

def ntestMsg : String :=
  "The case ntest != 1 is not implemented and necessitates defining an appropriate evaluation metric."

def forwardMsg : String :=
  "Forward problem not implemented. Use \"poisson\" or provide a callable for your forward problem."

def noiseMsg : String :=
  "Noise distribution not implemented. Use \"normal\" or provide a callable for your noise distribution."

/-- The source term `f = Function(V).interpolate(sin(pi * x) * sin(pi * y))`
(`generate_data.py`, line 47). -/
def poissonSource : UFLExpr :=
  .mul (.sin (.mul .piE .X)) (.sin (.mul .piE .Y))

/-- The residual `F = (inner(exp(k) * grad(u), grad(v)) - inner(f, v)) * dx`
for the `i`-th sampled field (`generate_data.py`, line 51). -/
def poissonResidual (i : Nat) : UFLExpr :=
  .sub (.inner (.mul (.exp (.coefK i)) (.grad .trialU)) (.grad .testV))
       (.inner .srcF .testV)

/-- The `i`-th call to `solve` in the `forward == 'poisson'` branch:
`bcs = [DirichletBC(V, Constant(0.0), "on_boundary")]` and
`solver_parameters={'ksp_type': 'preonly', 'pc_type': 'lu'}`. -/
def poissonCall (i : Nat) : SolveCallSpec :=
  { F := poissonResidual i
    source := poissonSource
    bcs := [((0 : ℝ), "on_boundary")]
    ksp := "preonly"
    pc := "lu" }

/-- The scaled uniform noise vector drawn in iteration `i` of the noise loop:
`noise = scale_noise * np.random.rand(V.dim())`, where the legacy global
stream stands at position `gpos + dim * i` when iteration `i` begins. -/
def noiseVecAt (unif : Nat → ℝ) (scale_noise : ℝ) (dim gpos i : Nat) : Vec :=
  (List.range dim).map (fun t => scale_noise * unif (gpos + dim * i + t))

/-- The `noise == 'normal'` loop (`generate_data.py`, lines 63-68): each
solution's coefficient vector is updated in place by
`u.dat.data[:] += noise`. -/
def addNoise (unif : Nat → ℝ) (scale_noise : ℝ) (dim gpos : Nat)
    (store : List Vec) : List Vec :=
  List.zipWith
    (fun i u => List.zipWith (fun a b => a + b) u (noiseVecAt unif scale_noise dim gpos i))
    (List.range store.length) store

/-- A sample persisted in a checkpoint file: the data of the functions saved
under names `k`, `u`, `u_obs` at one index. -/
def zip3Samples (a b c : List Vec) : List (Vec × Vec × Vec) :=
  List.zipWith (fun k p => (k, p)) a (List.zipWith Prod.mk b c)

/-- Contents of one checkpoint file: the count attribute (`ntrain`/`ntest`)
and the per-index saved functions. -/
structure SavedFile where
  countAttr : Nat
  samples : List (Vec × Vec × Vec)

/-- Result of a `generate_data` call: its event trace and either the two
written checkpoint files or the exception raised. -/
structure GenResult where
  events : List Event
  outcome : Except PyErr (SavedFile × SavedFile)

/-- The tail of `generate_data` from line 77: the starred unpackings
`*ks_train, k_test = ks` (and likewise for `us`, `us_obs`) raise `ValueError`
on an empty list; then the train file is opened and `ntrain` written, then
`save_mesh(mesh)` looks up the module-level global `mesh` (a `NameError` when
it is unbound); when it is bound both files are written. -/
def splitSave (meshBound : Bool) (ntrain ntest : Nat) (ks usD obsD : List Vec) :
    List Event × Except PyErr (SavedFile × SavedFile) :=
  match ks.getLast?, usD.getLast?, obsD.getLast? with
  | some kt, some ut, some ot =>
      if meshBound then
        ([Event.openFile "train_data.h5", Event.openFile "test_data.h5"],
         Except.ok
           ({ countAttr := ntrain,
              samples := zip3Samples ks.dropLast usD.dropLast obsD.dropLast },
            { countAttr := ntest, samples := [(kt, ut, ot)] }))
      else
        ([Event.openFile "train_data.h5"], Except.error (PyErr.nameError "mesh"))
  | _, _, _ => ([], Except.error PyErr.valueError)

/-- Dereference the `us`/`us_obs` object lists against the mutable store and
run the split-and-save tail.  `usRefs` and `obsRefs` are object identities
(indices into `store`): the aliasing between `us` and `us_obs` is which
indices the two lists hold. -/
def genSave (meshBound : Bool) (ntrain ntest : Nat) (ks store : List Vec)
    (usRefs obsRefs : List Nat) (evs : List Event) : GenResult :=
  { events := evs ++ (splitSave meshBound ntrain ntest ks
      (usRefs.map (fun r => store.getD r []))
      (obsRefs.map (fun r => store.getD r []))).1
    outcome := (splitSave meshBound ntrain ntest ks
      (usRefs.map (fun r => store.getD r []))
      (obsRefs.map (fun r => store.getD r []))).2 }

/-- The noise dispatch of `generate_data` (lines 60-72).  In the `'normal'`
branch the loop mutates each solution object in place and appends the same
object to `us_obs`, so `usRefs` and `obsRefs` are the same list of object
identities.  A callable produces fresh objects appended to the store. -/
def genAfterForward (unif : Nat → ℝ) (dim gpos : Nat) (scale_noise : ℝ)
    (noise : NoiseArg) (meshBound : Bool) (ntrain ntest : Nat)
    (ks store : List Vec) (evs : List Event) : GenResult :=
  match noise with
  | .str s =>
      if s = "normal" then
        genSave meshBound ntrain ntest ks
          (addNoise unif scale_noise dim gpos store)
          (List.range store.length) (List.range store.length)
          (evs ++ (List.range store.length).map Event.noiseAdd)
      else
        { events := evs, outcome := Except.error (PyErr.notImplemented noiseMsg) }
  | .call f =>
      genSave meshBound ntrain ntest ks
        (store ++ f store)
        (List.range store.length)
        ((List.range (f store).length).map (fun i => store.length + i))
        (evs ++ [Event.noiseCall])

/-- The sampled coefficient functions: `ks = random_field(V, N=ntrain+ntest,
tqdm=True, seed=seed)` interpolated into `V` (`generate_data.py`, line 39). -/
def genKs (gauss : Nat → Nat → ℝ) (interp : ScalarField → Vec)
    (gpos ntrain ntest seed : Nat) : List Vec :=
  ((random_field gauss gpos (ntrain + ntest) 15 (1.4 : ℝ) seed).1).map interp

/-- One sampling event per generated field. -/
def sampleEvents (ntrain ntest : Nat) : List Event :=
  (List.range (ntrain + ntest)).map Event.sampleField

/-- One `solve` call per sampled field in the `'poisson'` branch
(`generate_data.py`, lines 48-54). -/
def solveEvents (gauss : Nat → Nat → ℝ) (interp : ScalarField → Vec)
    (gpos ntrain ntest seed : Nat) : List Event :=
  (List.range (genKs gauss interp gpos ntrain ntest seed).length).map
    (fun i => Event.pdeSolve (poissonCall i))

/-- `generate_data(V, data_dir, ntrain, ntest, forward, noise, scale_noise,
seed)` (`generate_data.py`, lines 30-98).  Defaults: `ntrain=50`, `ntest=1`,
`forward='poisson'`, `noise='normal'`, `scale_noise=1.`, `seed=1234`.
`meshBound` records whether the module-level global `mesh` is bound (it is
assigned only in the `__main__` block, lines 117-119); `dim` is `V.dim()`;
`solveExt` is the external nonlinear solve producing the solution data from
the field data. -/
def generate_data (gauss : Nat → Nat → ℝ) (unif : Nat → ℝ)
    (interp : ScalarField → Vec) (solveExt : Vec → Vec)
    (dim : Nat) (meshBound : Bool) (gpos : Nat)
    (ntrain ntest : Nat) (forward : FwdArg) (noise : NoiseArg)
    (scale_noise : ℝ) (seed : Nat) : GenResult :=
  if ntest ≠ 1 then
    { events := [], outcome := Except.error (PyErr.notImplemented ntestMsg) }
  else
    match forward with
    | .str s =>
        if s = "poisson" then
          genAfterForward unif dim gpos scale_noise noise meshBound ntrain ntest
            (genKs gauss interp gpos ntrain ntest seed)
            ((genKs gauss interp gpos ntrain ntest seed).map solveExt)
            (sampleEvents ntrain ntest ++ solveEvents gauss interp gpos ntrain ntest seed)
        else
          { events := sampleEvents ntrain ntest,
            outcome := Except.error (PyErr.notImplemented forwardMsg) }
    | .call f =>
        genAfterForward unif dim gpos scale_noise noise meshBound ntrain ntest
          (genKs gauss interp gpos ntrain ntest seed)
          (f (genKs gauss interp gpos ntrain ntest seed))
          (sampleEvents ntrain ntest ++ [Event.forwardCall])

end

noncomputable section

/-- Is this event a field-sampling event? -/
def Event.isSample : Event → Bool
  | .sampleField _ => true
  | _ => false

/-- Is this event a PDE-solve event? -/
def Event.isSolve : Event → Bool
  | .pdeSolve _ => true
  | _ => false

/-- Is this event a checkpoint-file open? -/
def Event.isOpen : Event → Bool
  | .openFile _ => true
  | _ => false

theorem genKs_length (gauss : Nat → Nat → ℝ) (interp : ScalarField → Vec)
    (gpos ntrain ntest seed : Nat) :
    (genKs gauss interp gpos ntrain ntest seed).length = ntrain + ntest := by
  unfold genKs
  rw [random_field_closed]
  simp

theorem addNoise_length (unif : Nat → ℝ) (scale_noise : ℝ) (dim gpos : Nat)
    (store : List Vec) :
    (addNoise unif scale_noise dim gpos store).length = store.length := by
  simp [addNoise]

theorem derefRange (l : List Vec) :
    (List.range l.length).map (fun r => l.getD r []) = l := by
  apply List.ext_getElem
  · simp
  · intro i h1 h2
    simp [List.getD_eq_getElem?_getD, List.getElem?_eq_getElem h2]

theorem getLast?_of_len {l : List Vec} {n : Nat} (h : l.length = n + 1) :
    l.getLast? = some (l.getD n []) := by
  have hn : n < l.length := by omega
  rw [List.getLast?_eq_getElem?, h, Nat.add_sub_cancel]
  rw [List.getElem?_eq_getElem hn]
  rw [List.getD_eq_getElem?_getD, List.getElem?_eq_getElem hn]
  rfl

theorem zip3Samples_length (a b c : List Vec) :
    (zip3Samples a b c).length = min a.length (min b.length c.length) := by
  simp [zip3Samples]

theorem zip_self_fst_eq_snd (l : List Vec) :
    ∀ p ∈ l.zip l, (p : Vec × Vec).1 = p.2 := by
  induction l with
  | nil => simp
  | cons x xs ih =>
      intro p hp
      rw [List.zip_cons_cons] at hp
      rcases List.mem_cons.mp hp with h | h
      · rw [h]
      · exact ih p h

theorem zip_mem_snd (a : List Vec) :
    ∀ (bc : List (Vec × Vec)) (s : Vec × Vec × Vec), s ∈ a.zip bc → s.2 ∈ bc := by
  induction a with
  | nil => simp
  | cons x xs ih =>
      intro bc s hs
      cases bc with
      | nil => simp [List.zip] at hs
      | cons p ps =>
          rw [List.zip_cons_cons] at hs
          rcases List.mem_cons.mp hs with h | h
          · rw [h]; simp
          · exact List.mem_cons_of_mem p (ih ps s h)

theorem zip3Samples_alias (a b : List Vec) :
    ∀ s ∈ zip3Samples a b b, (s : Vec × Vec × Vec).2.1 = s.2.2 := by
  intro s hs
  exact zip_self_fst_eq_snd b s.2 (zip_mem_snd a (b.zip b) s hs)

theorem genSave_alias (mb : Bool) (ntr nte : Nat) (ks store : List Vec)
    (refs : List Nat) (evs : List Event) (tr te : SavedFile)
    (h : (genSave mb ntr nte ks store refs refs evs).outcome = Except.ok (tr, te)) :
    (∀ s ∈ tr.samples, (s : Vec × Vec × Vec).2.1 = s.2.2) ∧
    (∀ s ∈ te.samples, (s : Vec × Vec × Vec).2.1 = s.2.2) := by
  unfold genSave at h
  simp only at h
  unfold splitSave at h
  split at h
  case _ kt ut ot hk hu ho =>
      split at h
      · simp only [Except.ok.injEq, Prod.mk.injEq] at h
        obtain ⟨htr, hte⟩ := h
        constructor
        · intro s hs
          rw [← htr] at hs
          exact zip3Samples_alias _ _ s hs
        · intro s hs
          rw [← hte] at hs
          simp only at hs
          have hut : ut = ot := by
            rw [hu] at ho
            exact (Option.some.injEq _ _).mp ho
          rcases List.mem_singleton.mp hs with rfl
          simp [hut]
      · simp at h
  case _ =>
      simp at h

end

noncomputable section

theorem generate_data_poisson_eq (gauss : Nat → Nat → ℝ) (unif : Nat → ℝ)
    (interp : ScalarField → Vec) (solveExt : Vec → Vec)
    (dim : Nat) (mb : Bool) (gpos ntrain : Nat) (noise : NoiseArg)
    (scale_noise : ℝ) (seed : Nat) :
    generate_data gauss unif interp solveExt dim mb gpos ntrain 1
        (FwdArg.str "poisson") noise scale_noise seed =
      genAfterForward unif dim gpos scale_noise noise mb ntrain 1
        (genKs gauss interp gpos ntrain 1 seed)
        ((genKs gauss interp gpos ntrain 1 seed).map solveExt)
        (sampleEvents ntrain 1 ++ solveEvents gauss interp gpos ntrain 1 seed) := by
  rfl

theorem generate_data_call_eq (gauss : Nat → Nat → ℝ) (unif : Nat → ℝ)
    (interp : ScalarField → Vec) (solveExt : Vec → Vec)
    (dim : Nat) (mb : Bool) (gpos ntrain : Nat) (f : List Vec → List Vec)
    (noise : NoiseArg) (scale_noise : ℝ) (seed : Nat) :
    generate_data gauss unif interp solveExt dim mb gpos ntrain 1
        (FwdArg.call f) noise scale_noise seed =
      genAfterForward unif dim gpos scale_noise noise mb ntrain 1
        (genKs gauss interp gpos ntrain 1 seed)
        (f (genKs gauss interp gpos ntrain 1 seed))
        (sampleEvents ntrain 1 ++ [Event.forwardCall]) := by
  rfl

theorem generate_data_badForward_eq (gauss : Nat → Nat → ℝ) (unif : Nat → ℝ)
    (interp : ScalarField → Vec) (solveExt : Vec → Vec)
    (dim : Nat) (mb : Bool) (gpos ntrain : Nat) (s : String)
    (hs : s ≠ "poisson") (noise : NoiseArg) (scale_noise : ℝ) (seed : Nat) :
    generate_data gauss unif interp solveExt dim mb gpos ntrain 1
        (FwdArg.str s) noise scale_noise seed =
      { events := sampleEvents ntrain 1,
        outcome := Except.error (PyErr.notImplemented forwardMsg) } := by
  simp [generate_data, hs]

theorem genAfterForward_normal_eq (unif : Nat → ℝ) (dim gpos : Nat)
    (scale_noise : ℝ) (mb : Bool) (ntrain ntest : Nat)
    (ks store : List Vec) (evs : List Event) :
    genAfterForward unif dim gpos scale_noise (NoiseArg.str "normal") mb ntrain ntest
        ks store evs =
      genSave mb ntrain ntest ks
        (addNoise unif scale_noise dim gpos store)
        (List.range store.length) (List.range store.length)
        (evs ++ (List.range store.length).map Event.noiseAdd) := by
  rfl

theorem genAfterForward_badNoise_eq (unif : Nat → ℝ) (dim gpos : Nat)
    (scale_noise : ℝ) (mb : Bool) (ntrain ntest : Nat)
    (ks store : List Vec) (evs : List Event) (s : String) (hs : s ≠ "normal") :
    genAfterForward unif dim gpos scale_noise (NoiseArg.str s) mb ntrain ntest
        ks store evs =
      { events := evs, outcome := Except.error (PyErr.notImplemented noiseMsg) } := by
  simp [genAfterForward, hs]

theorem default_run_ok (gauss : Nat → Nat → ℝ) (unif : Nat → ℝ)
    (interp : ScalarField → Vec) (solveExt : Vec → Vec)
    (dim gpos ntrain : Nat) (scale_noise : ℝ) (seed : Nat) :
    generate_data gauss unif interp solveExt dim true gpos ntrain 1
        (FwdArg.str "poisson") (NoiseArg.str "normal") scale_noise seed =
      { events := sampleEvents ntrain 1 ++ solveEvents gauss interp gpos ntrain 1 seed ++
          (List.range (ntrain + 1)).map Event.noiseAdd ++
          [Event.openFile "train_data.h5", Event.openFile "test_data.h5"],
        outcome := Except.ok
          ({ countAttr := ntrain,
             samples := zip3Samples (genKs gauss interp gpos ntrain 1 seed).dropLast
               (addNoise unif scale_noise dim gpos
                 ((genKs gauss interp gpos ntrain 1 seed).map solveExt)).dropLast
               (addNoise unif scale_noise dim gpos
                 ((genKs gauss interp gpos ntrain 1 seed).map solveExt)).dropLast },
           { countAttr := 1,
             samples := [((genKs gauss interp gpos ntrain 1 seed).getD ntrain [],
               (addNoise unif scale_noise dim gpos
                 ((genKs gauss interp gpos ntrain 1 seed).map solveExt)).getD ntrain [],
               (addNoise unif scale_noise dim gpos
                 ((genKs gauss interp gpos ntrain 1 seed).map solveExt)).getD ntrain [])] }) } := by
  rw [generate_data_poisson_eq, genAfterForward_normal_eq]
  have hstoreLen : ((genKs gauss interp gpos ntrain 1 seed).map solveExt).length = ntrain + 1 := by
    rw [List.length_map, genKs_length]
  have hULen : (addNoise unif scale_noise dim gpos
      ((genKs gauss interp gpos ntrain 1 seed).map solveExt)).length = ntrain + 1 := by
    rw [addNoise_length, hstoreLen]
  unfold genSave
  have hderef : (List.range ((genKs gauss interp gpos ntrain 1 seed).map solveExt).length).map
      (fun r => (addNoise unif scale_noise dim gpos
        ((genKs gauss interp gpos ntrain 1 seed).map solveExt)).getD r []) =
      addNoise unif scale_noise dim gpos
        ((genKs gauss interp gpos ntrain 1 seed).map solveExt) := by
    rw [hstoreLen, ← hULen]
    exact derefRange _
  rw [hderef]
  unfold splitSave
  rw [getLast?_of_len (by rw [genKs_length]), getLast?_of_len hULen]
  rw [hstoreLen]
  rfl

theorem default_run_nomesh (gauss : Nat → Nat → ℝ) (unif : Nat → ℝ)
    (interp : ScalarField → Vec) (solveExt : Vec → Vec)
    (dim gpos ntrain : Nat) (scale_noise : ℝ) (seed : Nat) :
    generate_data gauss unif interp solveExt dim false gpos ntrain 1
        (FwdArg.str "poisson") (NoiseArg.str "normal") scale_noise seed =
      { events := sampleEvents ntrain 1 ++ solveEvents gauss interp gpos ntrain 1 seed ++
          (List.range (ntrain + 1)).map Event.noiseAdd ++
          [Event.openFile "train_data.h5"],
        outcome := Except.error (PyErr.nameError "mesh") } := by
  rw [generate_data_poisson_eq, genAfterForward_normal_eq]
  have hstoreLen : ((genKs gauss interp gpos ntrain 1 seed).map solveExt).length = ntrain + 1 := by
    rw [List.length_map, genKs_length]
  have hULen : (addNoise unif scale_noise dim gpos
      ((genKs gauss interp gpos ntrain 1 seed).map solveExt)).length = ntrain + 1 := by
    rw [addNoise_length, hstoreLen]
  unfold genSave
  have hderef : (List.range ((genKs gauss interp gpos ntrain 1 seed).map solveExt).length).map
      (fun r => (addNoise unif scale_noise dim gpos
        ((genKs gauss interp gpos ntrain 1 seed).map solveExt)).getD r []) =
      addNoise unif scale_noise dim gpos
        ((genKs gauss interp gpos ntrain 1 seed).map solveExt) := by
    rw [hstoreLen, ← hULen]
    exact derefRange _
  rw [hderef]
  unfold splitSave
  rw [getLast?_of_len (by rw [genKs_length]), getLast?_of_len hULen]
  rw [hstoreLen]
  rfl

end

noncomputable section

/-- A concrete uniform stream, interpolation and solver used by witnesses. -/
def unifW : Nat → ℝ := fun _ => 0

def interpW : ScalarField → Vec := fun _ => []

def solveW : Vec → Vec := fun v => v

/-- C1: with the default noise identifier `'normal'`, the noise loop mutates
each solution object in place (`u.dat.data[:] += noise`) and appends the very
same object to `us_obs`; consequently in any successful run every persisted
sample has the data saved under `"u"` equal to the data saved under
`"u_obs"`, in the train file and in the test file: no clean solution is
preserved. -/
theorem generate_data_default_noise_alias (gauss : Nat → Nat → ℝ) (unif : Nat → ℝ)
    (interp : ScalarField → Vec) (solveExt : Vec → Vec)
    (dim : Nat) (mb : Bool) (gpos ntrain ntest : Nat) (forward : FwdArg)
    (scale_noise : ℝ) (seed : Nat) (tr te : SavedFile)
    (h : (generate_data gauss unif interp solveExt dim mb gpos ntrain ntest forward
        (NoiseArg.str "normal") scale_noise seed).outcome = Except.ok (tr, te)) :
    (∀ s ∈ tr.samples, (s : Vec × Vec × Vec).2.1 = s.2.2) ∧
    (∀ s ∈ te.samples, (s : Vec × Vec × Vec).2.1 = s.2.2) := by
  unfold generate_data at h
  split at h
  · simp at h
  · split at h
    · split at h
      · rw [genAfterForward_normal_eq] at h
        exact genSave_alias _ _ _ _ _ _ _ _ _ h
      · simp at h
    · rw [genAfterForward_normal_eq] at h
      exact genSave_alias _ _ _ _ _ _ _ _ _ h

/-- Witness for C1 at a concrete run (`ntrain = 0`, trivial externals). -/
theorem generate_data_default_noise_alias_witness :
    (∀ s ∈ (SavedFile.mk 0 []).samples, (s : Vec × Vec × Vec).2.1 = s.2.2) ∧
    (∀ s ∈ (SavedFile.mk 1 [(([] : Vec), ([] : Vec), ([] : Vec))]).samples,
      (s : Vec × Vec × Vec).2.1 = s.2.2) :=
  generate_data_default_noise_alias gaussW unifW interpW solveW 0 true 0 0 1
    (FwdArg.str "poisson") 0 0 (SavedFile.mk 0 [])
    (SavedFile.mk 1 [([], [], [])]) rfl

/-- C2: a call with `ntest != 1` raises `NotImplementedError` first thing:
the event trace is empty — no field sampling, no PDE solve, no file write. -/
theorem generate_data_ntest_rejected (gauss : Nat → Nat → ℝ) (unif : Nat → ℝ)
    (interp : ScalarField → Vec) (solveExt : Vec → Vec)
    (dim : Nat) (mb : Bool) (gpos ntrain ntest : Nat) (forward : FwdArg)
    (noise : NoiseArg) (scale_noise : ℝ) (seed : Nat) (h : ntest ≠ 1) :
    (generate_data gauss unif interp solveExt dim mb gpos ntrain ntest forward
      noise scale_noise seed).events = [] ∧
    (generate_data gauss unif interp solveExt dim mb gpos ntrain ntest forward
      noise scale_noise seed).outcome =
        Except.error (PyErr.notImplemented ntestMsg) := by
  unfold generate_data
  rw [if_pos h]
  exact ⟨rfl, rfl⟩

/-- Witness for C2 at `ntest = 2`. -/
theorem generate_data_ntest_rejected_witness :
    (generate_data gaussW unifW interpW solveW 0 true 0 3 2 (FwdArg.str "poisson")
      (NoiseArg.str "normal") 0 0).events = [] ∧
    (generate_data gaussW unifW interpW solveW 0 true 0 3 2 (FwdArg.str "poisson")
      (NoiseArg.str "normal") 0 0).outcome =
        Except.error (PyErr.notImplemented ntestMsg) :=
  generate_data_ntest_rejected gaussW unifW interpW solveW 0 true 0 3 2
    (FwdArg.str "poisson") (NoiseArg.str "normal") 0 0 (by decide)

/-- C3: a forward argument that is a string other than `'poisson'` (and hence
not a callable) raises `NotImplementedError` whose message names the valid
choices (`"poisson"` or a callable); the fields have been sampled but no
`solve` call has been issued. -/
theorem generate_data_unknown_forward (gauss : Nat → Nat → ℝ) (unif : Nat → ℝ)
    (interp : ScalarField → Vec) (solveExt : Vec → Vec)
    (dim : Nat) (mb : Bool) (gpos ntrain : Nat) (s : String)
    (noise : NoiseArg) (scale_noise : ℝ) (seed : Nat) (hs : s ≠ "poisson") :
    (generate_data gauss unif interp solveExt dim mb gpos ntrain 1
      (FwdArg.str s) noise scale_noise seed).outcome =
        Except.error (PyErr.notImplemented forwardMsg) ∧
    (generate_data gauss unif interp solveExt dim mb gpos ntrain 1
      (FwdArg.str s) noise scale_noise seed).events = sampleEvents ntrain 1 ∧
    (∀ c, Event.pdeSolve c ∉ (generate_data gauss unif interp solveExt dim mb gpos
      ntrain 1 (FwdArg.str s) noise scale_noise seed).events) ∧
    (∃ pre post : String, forwardMsg = pre ++ "\"poisson\"" ++ post) := by
  rw [generate_data_badForward_eq gauss unif interp solveExt dim mb gpos ntrain s hs
    noise scale_noise seed]
  refine ⟨rfl, rfl, ?_, ?_⟩
  · intro c hc
    simp only [sampleEvents] at hc
    rcases List.mem_map.mp hc with ⟨i, _, hie⟩
    exact Event.noConfusion hie
  · exact ⟨"Forward problem not implemented. Use ",
      " or provide a callable for your forward problem.", by decide⟩

/-- Witness for C3 at `forward = "unknown_pde"`. -/
theorem generate_data_unknown_forward_witness :
    (generate_data gaussW unifW interpW solveW 0 true 0 2 1
      (FwdArg.str "unknown_pde") (NoiseArg.str "normal") 0 0).outcome =
        Except.error (PyErr.notImplemented forwardMsg) ∧
    (generate_data gaussW unifW interpW solveW 0 true 0 2 1
      (FwdArg.str "unknown_pde") (NoiseArg.str "normal") 0 0).events =
        sampleEvents 2 1 ∧
    (∀ c, Event.pdeSolve c ∉ (generate_data gaussW unifW interpW solveW 0 true 0 2 1
      (FwdArg.str "unknown_pde") (NoiseArg.str "normal") 0 0).events) ∧
    (∃ pre post : String, forwardMsg = pre ++ "\"poisson\"" ++ post) :=
  generate_data_unknown_forward gaussW unifW interpW solveW 0 true 0 2 "unknown_pde"
    (NoiseArg.str "normal") 0 0 (by decide)

end

noncomputable section

/-- Is this event a noise-injection step? -/
def Event.isNoise : Event → Bool
  | .noiseAdd _ => true
  | _ => false

theorem sampleEvents_count (ntrain ntest : Nat) :
    (sampleEvents ntrain ntest).countP Event.isSample = ntrain + ntest := by
  unfold sampleEvents
  rw [List.countP_eq_length.mpr]
  · simp
  · intro e he
    rcases List.mem_map.mp he with ⟨i, _, rfl⟩
    rfl

theorem sampleEvents_no_solve (ntrain ntest : Nat) :
    (sampleEvents ntrain ntest).countP Event.isSolve = 0 := by
  unfold sampleEvents
  rw [List.countP_eq_zero.mpr]
  intro e he
  rcases List.mem_map.mp he with ⟨i, _, rfl⟩
  simp [Event.isSolve]

theorem solveEvents_count (gauss : Nat → Nat → ℝ) (interp : ScalarField → Vec)
    (gpos ntrain ntest seed : Nat) :
    (solveEvents gauss interp gpos ntrain ntest seed).countP Event.isSolve =
      ntrain + ntest := by
  unfold solveEvents
  rw [List.countP_eq_length.mpr]
  · simp [genKs_length]
  · intro e he
    rcases List.mem_map.mp he with ⟨i, _, rfl⟩
    rfl

theorem solveEvents_no_sample (gauss : Nat → Nat → ℝ) (interp : ScalarField → Vec)
    (gpos ntrain ntest seed : Nat) :
    (solveEvents gauss interp gpos ntrain ntest seed).countP Event.isSample = 0 := by
  unfold solveEvents
  rw [List.countP_eq_zero.mpr]
  intro e he
  rcases List.mem_map.mp he with ⟨i, _, rfl⟩
  simp [Event.isSample]

theorem noiseEvents_no_sample (n : Nat) :
    ((List.range n).map Event.noiseAdd).countP Event.isSample = 0 := by
  rw [List.countP_eq_zero.mpr]
  intro e he
  rcases List.mem_map.mp he with ⟨i, _, rfl⟩
  simp [Event.isSample]

theorem noiseEvents_no_solve (n : Nat) :
    ((List.range n).map Event.noiseAdd).countP Event.isSolve = 0 := by
  rw [List.countP_eq_zero.mpr]
  intro e he
  rcases List.mem_map.mp he with ⟨i, _, rfl⟩
  simp [Event.isSolve]

theorem noiseEvents_count (n : Nat) :
    ((List.range n).map Event.noiseAdd).countP Event.isNoise = n := by
  rw [List.countP_eq_length.mpr]
  · simp
  · intro e he
    rcases List.mem_map.mp he with ⟨i, _, rfl⟩
    rfl

/-- C4: a successful default run (`ntest = 1`, `forward = 'poisson'`,
`noise = 'normal'`, mesh bound) generates `ntrain + 1` fields and `ntrain + 1`
solve calls, writes exactly `ntrain` samples (and the attribute `ntrain`) to
the train file, and writes exactly one sample — the last generated triple —
(and the attribute `1`) to the test file. -/
theorem generate_data_split_sizes (gauss : Nat → Nat → ℝ) (unif : Nat → ℝ)
    (interp : ScalarField → Vec) (solveExt : Vec → Vec)
    (dim gpos ntrain : Nat) (scale_noise : ℝ) (seed : Nat) :
    ∃ tr te,
      (generate_data gauss unif interp solveExt dim true gpos ntrain 1
        (FwdArg.str "poisson") (NoiseArg.str "normal") scale_noise seed).outcome =
          Except.ok (tr, te) ∧
      (genKs gauss interp gpos ntrain 1 seed).length = ntrain + 1 ∧
      (solveEvents gauss interp gpos ntrain 1 seed).length = ntrain + 1 ∧
      tr.countAttr = ntrain ∧ tr.samples.length = ntrain ∧
      te.countAttr = 1 ∧ te.samples.length = 1 ∧
      te.samples = [((genKs gauss interp gpos ntrain 1 seed).getD ntrain [],
        (addNoise unif scale_noise dim gpos
          ((genKs gauss interp gpos ntrain 1 seed).map solveExt)).getD ntrain [],
        (addNoise unif scale_noise dim gpos
          ((genKs gauss interp gpos ntrain 1 seed).map solveExt)).getD ntrain [])] := by
  rw [default_run_ok]
  refine ⟨_, _, rfl, genKs_length gauss interp gpos ntrain 1 seed, ?_, rfl, ?_, rfl, rfl, rfl⟩
  · unfold solveEvents
    simp [genKs_length]
  · rw [zip3Samples_length]
    rw [List.length_dropLast, List.length_dropLast, genKs_length, addNoise_length,
      List.length_map, genKs_length]
    omega

/-- C8: in the `'poisson'` branch one `solve` call is issued per sampled
field, and every such call passes the residual
`inner(exp(k) * grad(u), grad(v)) - inner(f, v)` with `k` the sampled field,
the homogeneous Dirichlet condition `Constant(0.0)` on `"on_boundary"`, the
source `sin(pi x) sin(pi y)` interpolated into `f`, and the direct solver
parameters `ksp_type = preonly`, `pc_type = lu`. -/
theorem generate_data_poisson_problem_spec (gauss : Nat → Nat → ℝ) (unif : Nat → ℝ)
    (interp : ScalarField → Vec) (solveExt : Vec → Vec)
    (dim gpos ntrain : Nat) (scale_noise : ℝ) (seed : Nat) :
    (∀ i, i < ntrain + 1 →
      Event.pdeSolve (poissonCall i) ∈ (generate_data gauss unif interp solveExt dim
        true gpos ntrain 1 (FwdArg.str "poisson") (NoiseArg.str "normal")
        scale_noise seed).events) ∧
    (∀ c, Event.pdeSolve c ∈ (generate_data gauss unif interp solveExt dim
        true gpos ntrain 1 (FwdArg.str "poisson") (NoiseArg.str "normal")
        scale_noise seed).events → ∃ i, i < ntrain + 1 ∧ c = poissonCall i) ∧
    (∀ i, (poissonCall i).F =
        UFLExpr.sub
          (UFLExpr.inner
            (UFLExpr.mul (UFLExpr.exp (UFLExpr.coefK i)) (UFLExpr.grad UFLExpr.trialU))
            (UFLExpr.grad UFLExpr.testV))
          (UFLExpr.inner UFLExpr.srcF UFLExpr.testV) ∧
      (poissonCall i).bcs = [((0 : ℝ), "on_boundary")] ∧
      (poissonCall i).ksp = "preonly" ∧ (poissonCall i).pc = "lu" ∧
      ∀ x y : ℝ, (poissonCall i).source.evalS x y =
        some (Real.sin (Real.pi * x) * Real.sin (Real.pi * y))) := by
  rw [default_run_ok]
  refine ⟨?_, ?_, ?_⟩
  · intro i hi
    simp only [List.mem_append]
    left; left; right
    unfold solveEvents
    refine List.mem_map.mpr ⟨i, List.mem_range.mpr ?_, rfl⟩
    rw [genKs_length]
    omega
  · intro c hc
    simp only [List.mem_append] at hc
    rcases hc with ((hc | hc) | hc) | hc
    · rcases List.mem_map.mp hc with ⟨i, _, hie⟩
      exact Event.noConfusion hie
    · unfold solveEvents at hc
      rcases List.mem_map.mp hc with ⟨i, hi, hie⟩
      refine ⟨i, ?_, ?_⟩
      · have := List.mem_range.mp hi
        rw [genKs_length] at this
        omega
      · exact (Event.pdeSolve.injEq _ _).mp hie.symm
    · rcases List.mem_map.mp hc with ⟨i, _, hie⟩
      exact Event.noConfusion hie
    · simp at hc
  · intro i
    refine ⟨rfl, rfl, rfl, rfl, ?_⟩
    intro x y
    simp [poissonCall, poissonSource, UFLExpr.evalS]

/-- C9: with the default forward problem and a noise argument that is a
string other than `'normal'` (hence not a callable), the
`NotImplementedError` for the noise distribution is raised only after all
`ntrain + 1` fields are sampled and all `ntrain + 1` solve calls are made,
and no checkpoint file is opened. -/
theorem generate_data_unknown_noise_late (gauss : Nat → Nat → ℝ) (unif : Nat → ℝ)
    (interp : ScalarField → Vec) (solveExt : Vec → Vec)
    (dim : Nat) (mb : Bool) (gpos ntrain : Nat) (s : String)
    (scale_noise : ℝ) (seed : Nat) (hs : s ≠ "normal") :
    (generate_data gauss unif interp solveExt dim mb gpos ntrain 1
      (FwdArg.str "poisson") (NoiseArg.str s) scale_noise seed).outcome =
        Except.error (PyErr.notImplemented noiseMsg) ∧
    (generate_data gauss unif interp solveExt dim mb gpos ntrain 1
      (FwdArg.str "poisson") (NoiseArg.str s) scale_noise seed).events =
        sampleEvents ntrain 1 ++ solveEvents gauss interp gpos ntrain 1 seed ∧
    (generate_data gauss unif interp solveExt dim mb gpos ntrain 1
      (FwdArg.str "poisson") (NoiseArg.str s) scale_noise seed).events.countP
        Event.isSample = ntrain + 1 ∧
    (generate_data gauss unif interp solveExt dim mb gpos ntrain 1
      (FwdArg.str "poisson") (NoiseArg.str s) scale_noise seed).events.countP
        Event.isSolve = ntrain + 1 ∧
    ∀ nm, Event.openFile nm ∉ (generate_data gauss unif interp solveExt dim mb gpos
      ntrain 1 (FwdArg.str "poisson") (NoiseArg.str s) scale_noise seed).events := by
  rw [generate_data_poisson_eq, genAfterForward_badNoise_eq _ _ _ _ _ _ _ _ _ _ s hs]
  refine ⟨rfl, rfl, ?_, ?_, ?_⟩
  · simp only [List.countP_append]
    rw [sampleEvents_count, solveEvents_no_sample]
  · simp only [List.countP_append]
    rw [sampleEvents_no_solve, solveEvents_count]
    omega
  · intro nm hc
    simp only [List.mem_append] at hc
    rcases hc with hc | hc
    · rcases List.mem_map.mp hc with ⟨i, _, hie⟩
      exact Event.noConfusion hie
    · unfold solveEvents at hc
      rcases List.mem_map.mp hc with ⟨i, _, hie⟩
      exact Event.noConfusion hie

/-- Witness for C9 at `noise = "uniform"`. -/
theorem generate_data_unknown_noise_late_witness :
    (generate_data gaussW unifW interpW solveW 0 true 0 1 1
      (FwdArg.str "poisson") (NoiseArg.str "uniform") 0 0).outcome =
        Except.error (PyErr.notImplemented noiseMsg) ∧
    (generate_data gaussW unifW interpW solveW 0 true 0 1 1
      (FwdArg.str "poisson") (NoiseArg.str "uniform") 0 0).events =
        sampleEvents 1 1 ++ solveEvents gaussW interpW 0 1 1 0 ∧
    (generate_data gaussW unifW interpW solveW 0 true 0 1 1
      (FwdArg.str "poisson") (NoiseArg.str "uniform") 0 0).events.countP
        Event.isSample = 1 + 1 ∧
    (generate_data gaussW unifW interpW solveW 0 true 0 1 1
      (FwdArg.str "poisson") (NoiseArg.str "uniform") 0 0).events.countP
        Event.isSolve = 1 + 1 ∧
    ∀ nm, Event.openFile nm ∉ (generate_data gaussW unifW interpW solveW 0 true 0 1 1
      (FwdArg.str "poisson") (NoiseArg.str "uniform") 0 0).events :=
  generate_data_unknown_noise_late gaussW unifW interpW solveW 0 true 0 1 "uniform"
    0 0 (by decide)

/-- C10: the save step reads the module-level global `mesh`, bound only in
the `__main__` block; called with `mesh` unbound, the default run fails with
`NameError` at the save step — after all `ntrain + 1` samplings, all
`ntrain + 1` solves and all `ntrain + 1` noise injections, with the train
checkpoint file already opened. -/
theorem generate_data_missing_mesh (gauss : Nat → Nat → ℝ) (unif : Nat → ℝ)
    (interp : ScalarField → Vec) (solveExt : Vec → Vec)
    (dim gpos ntrain : Nat) (scale_noise : ℝ) (seed : Nat) :
    (generate_data gauss unif interp solveExt dim false gpos ntrain 1
      (FwdArg.str "poisson") (NoiseArg.str "normal") scale_noise seed).outcome =
        Except.error (PyErr.nameError "mesh") ∧
    (generate_data gauss unif interp solveExt dim false gpos ntrain 1
      (FwdArg.str "poisson") (NoiseArg.str "normal") scale_noise seed).events =
        sampleEvents ntrain 1 ++ solveEvents gauss interp gpos ntrain 1 seed ++
        (List.range (ntrain + 1)).map Event.noiseAdd ++
        [Event.openFile "train_data.h5"] ∧
    (generate_data gauss unif interp solveExt dim false gpos ntrain 1
      (FwdArg.str "poisson") (NoiseArg.str "normal") scale_noise seed).events.countP
        Event.isSample = ntrain + 1 ∧
    (generate_data gauss unif interp solveExt dim false gpos ntrain 1
      (FwdArg.str "poisson") (NoiseArg.str "normal") scale_noise seed).events.countP
        Event.isSolve = ntrain + 1 ∧
    (generate_data gauss unif interp solveExt dim false gpos ntrain 1
      (FwdArg.str "poisson") (NoiseArg.str "normal") scale_noise seed).events.countP
        Event.isNoise = ntrain + 1 := by
  rw [default_run_nomesh]
  refine ⟨rfl, rfl, ?_, ?_, ?_⟩
  · simp only [List.countP_append]
    rw [sampleEvents_count, solveEvents_no_sample, noiseEvents_no_sample]
    simp [Event.isSample]
  · simp only [List.countP_append]
    rw [sampleEvents_no_solve, solveEvents_count, noiseEvents_no_solve]
    simp [Event.isSolve]
  · simp only [List.countP_append]
    rw [noiseEvents_count]
    have h1 : (sampleEvents ntrain 1).countP Event.isNoise = 0 := by
      unfold sampleEvents
      rw [List.countP_eq_zero.mpr]
      intro e he
      rcases List.mem_map.mp he with ⟨i, _, rfl⟩
      simp [Event.isNoise]
    have h2 : (solveEvents gauss interp gpos ntrain 1 seed).countP Event.isNoise = 0 := by
      unfold solveEvents
      rw [List.countP_eq_zero.mpr]
      intro e he
      rcases List.mem_map.mp he with ⟨i, _, rfl⟩
      simp [Event.isNoise]
    rw [h1, h2]
    simp [Event.isNoise]

end

noncomputable section

/-- State of the pyadjoint layer used by `test_pytorch_coupling.py`: whether
annotation is active (`annotate_tape()`) and the contents of the shared
working tape (abstract block identifiers). -/
structure TapeState where
  annotating : Bool
  tape : List Nat

/-- Observable actions of the fixtures. -/
inductive TapeEvent where
  | enableAnnot
  | pauseAnnot
  | clearTapeOp
deriving DecidableEq

/-- Setup of the module-scoped fixture (`test_pytorch_coupling.py`,
lines 23-26): `if not annotate_tape(): continue_annotation()`. -/
def sessionSetup (s : TapeState) : TapeState × List TapeEvent :=
  if s.annotating = false then
    ({ s with annotating := true }, [TapeEvent.enableAnnot])
  else
    (s, [])

/-- Per-test teardown (`handle_taping`, lines 16-20): after the test body,
`get_working_tape().clear_tape()`. -/
def testTeardown (s : TapeState) : TapeState :=
  { s with tape := [] }

/-- One test: its body records blocks `ops` on the shared tape, then the
autouse teardown clears the tape. -/
def runOneTest (s : TapeState) (ops : List Nat) : TapeState :=
  testTeardown { s with tape := s.tape ++ ops }

/-- All tests of the module in order. -/
def runTests (s : TapeState) : List (List Nat) → TapeState
  | [] => s
  | ops :: rest => runTests (runOneTest s ops) rest

/-- Teardown of the module-scoped fixture (lines 27-33):
`annotate = annotate_tape(); if annotate: pause_annotation()`. -/
def sessionTeardown (s : TapeState) : TapeState × List TapeEvent :=
  if s.annotating then
    ({ s with annotating := false }, [TapeEvent.pauseAnnot])
  else
    (s, [])

/-- A whole module run: fixture setup, the tests, fixture teardown. -/
def runSession (s0 : TapeState) (tests : List (List Nat)) :
    TapeState × List TapeEvent :=
  ((sessionTeardown (runTests (sessionSetup s0).1 tests)).1,
   (sessionSetup s0).2 ++ (sessionTeardown (runTests (sessionSetup s0).1 tests)).2)

theorem runTests_annotating (tests : List (List Nat)) :
    ∀ s : TapeState, (runTests s tests).annotating = s.annotating := by
  induction tests with
  | nil => intro s; rfl
  | cons ops rest ih =>
      intro s
      rw [runTests, ih]
      rfl

/-- C5, counterexample: a module that finds annotation already active
(`annotating = true` at setup, so the session does not enable it) still emits
a pause at session end — the teardown checks `annotate_tape()`, not whether
the setup enabled annotation.  This refutes "annotation is paused at session
end only if it was enabled by the session itself". -/
theorem handle_annotation_pauses_foreign :
    (TapeState.mk true []).annotating = true ∧
    (runSession (TapeState.mk true []) []).2 = [TapeEvent.pauseAnnot] := by
  constructor
  · rfl
  · rfl

/-- C5, amended: annotation is enabled once per session exactly when it was
not already active; every test clears the shared tape on teardown; and
annotation is paused at session end whenever it is active at teardown — since
the setup guarantees it is active and the tests never disable it, the session
always pauses annotation at the end, whether or not it enabled it itself. -/
theorem handle_annotation_lifecycle (s0 : TapeState) (tests : List (List Nat)) :
    (TapeEvent.enableAnnot ∈ (runSession s0 tests).2 ↔ s0.annotating = false) ∧
    (∀ (s : TapeState) (ops : List Nat), (runOneTest s ops).tape = []) ∧
    TapeEvent.pauseAnnot ∈ (runSession s0 tests).2 ∧
    (runSession s0 tests).1.annotating = false := by
  have hsetup : ((sessionSetup s0).1).annotating = true := by
    unfold sessionSetup
    rcases hb : s0.annotating with _ | _
    · rw [if_pos rfl]
    · rw [if_neg (by simp)]
      exact hb
  have hmid : (runTests (sessionSetup s0).1 tests).annotating = true := by
    rw [runTests_annotating, hsetup]
  have htd : sessionTeardown (runTests (sessionSetup s0).1 tests) =
      ({ runTests (sessionSetup s0).1 tests with annotating := false },
       [TapeEvent.pauseAnnot]) := by
    unfold sessionTeardown
    rw [if_pos hmid]
  refine ⟨?_, ?_, ?_, ?_⟩
  · unfold runSession
    rw [htd]
    unfold sessionSetup
    rcases hb : s0.annotating with _ | _
    · simp
    · simp
  · intro s ops
    rfl
  · unfold runSession
    rw [htd]
    simp
  · unfold runSession
    rw [htd]

end
